import Mathlib

/-!
Shallow embedding of the Orcafacil price-quotation system.

The repository ships the presentation layer (React pages under
`src/frontend` and `src/unnamed`); the Catalog Matching & Price Resolution
Engine is specified by its observable contract only.  Definitions below are
translated from the JavaScript source where it exists (`getColorClass`,
`getCincoDisplayColor`, `handleGetQuotations` line handling, the
FavoritesPage 5% cell); the engine-side definitions (`resolve`,
`matchKeyword`, `run_batch`, favorites registry) are modelled from the
specification, as flagged in their doc comments.
-/

namespace Orcafacil

/-- One parsed line of the price table (spec §3 CatalogRow).  Colors are the
strings the backend serves; `cinco_porcento` may be absent. -/
structure CatalogRow where
  product_name : String
  valor_venda : String
  valor_venda_color : String
  limite_sistema : String
  limite_sistema_color : String
  limite_tabela : String
  limite_tabela_color : String
  cinco_porcento : Option String
  cinco_porcento_color : String
deriving DecidableEq, Repr

/-- Output of the Price Resolver (spec §4.2 ResolvedPriceFields). -/
structure ResolvedPriceFields where
  valor_venda : String
  valor_venda_color : String
  limite_sistema : String
  limite_sistema_color : String
  limite_tabela : String
  limite_tabela_color : String
  cinco_porcento_display : String
  cinco_porcento_color : String
  fallback_applied : Bool
deriving DecidableEq, Repr

/-- Modelled from the spec: the Price Resolver (`resolve`, spec §4.2) is not
under `src/`.  Pass-through of the three price fields and their colors; when
`cinco_porcento` is absent, substitute `limite_tabela` as the display value,
set `fallback_applied`, and leave the original 5% color `none` (there was no
original value); when present, use the row value and color unmodified. -/
def resolve (row : CatalogRow) : ResolvedPriceFields :=
  match row.cinco_porcento with
  | none =>
    { valor_venda := row.valor_venda
      valor_venda_color := row.valor_venda_color
      limite_sistema := row.limite_sistema
      limite_sistema_color := row.limite_sistema_color
      limite_tabela := row.limite_tabela
      limite_tabela_color := row.limite_tabela_color
      cinco_porcento_display := row.limite_tabela
      cinco_porcento_color := "none"
      fallback_applied := true }
  | some v =>
    { valor_venda := row.valor_venda
      valor_venda_color := row.valor_venda_color
      limite_sistema := row.limite_sistema
      limite_sistema_color := row.limite_sistema_color
      limite_tabela := row.limite_tabela
      limite_tabela_color := row.limite_tabela_color
      cinco_porcento_display := v
      cinco_porcento_color := row.cinco_porcento_color
      fallback_applied := false }

/-- One resolved match as consumed by the UI (spec §3 Match; field set read
by `SearchPage.js`). -/
structure Match where
  matched_item_name : String
  valor_venda : String
  valor_venda_color : String
  limite_sistema : String
  limite_sistema_color : String
  limite_tabela : String
  limite_tabela_color : String
  cinco_porcento_display : String
  cinco_porcento_color : String
  match_score : Nat
  is_favorite : Bool
  fallback_applied : Bool
deriving DecidableEq, Repr

/-- Modelled from the spec: assembling a Match from a resolved row, a score
and the favorites registry (spec §3, §4.4); this assembly happens in the
backend, not under `src/`.  `is_favorite` is exact equality membership of
`product_name` in the favorites set. -/
def buildMatch (favorites : Finset String) (row : CatalogRow) (score : Nat) : Match :=
  let r := resolve row
  { matched_item_name := row.product_name
    valor_venda := r.valor_venda
    valor_venda_color := r.valor_venda_color
    limite_sistema := r.limite_sistema
    limite_sistema_color := r.limite_sistema_color
    limite_tabela := r.limite_tabela
    limite_tabela_color := r.limite_tabela_color
    cinco_porcento_display := r.cinco_porcento_display
    cinco_porcento_color := r.cinco_porcento_color
    match_score := score
    is_favorite := decide (row.product_name ∈ favorites)
    fallback_applied := r.fallback_applied }

/-- From `src/frontend/src/pages/SearchPage.js` lines 99-103 (also in
FavoritesPage and `src/unnamed/part_003`): map a source color to a CSS
class; anything other than yellow or green renders uncolored. -/
def getColorClass (color : String) : String :=
  if color = "yellow" then "value-yellow"
  else if color = "green" then "value-green"
  else ""

/-- From `src/frontend/src/pages/SearchPage.js` lines 105-110 (also
`src/unnamed/part_003` lines 164-169): displayed color of the 5% cell. -/
def getCincoDisplayColor (m : Match) : String :=
  if m.fallback_applied = true ∧ m.limite_tabela_color = "green" then "value-green"
  else getColorClass m.cinco_porcento_color

/-- Modelled from the spec: normalization strips Portuguese diacritics
(spec §4.1: "case-folded and diacritic-stripped ... accents must not affect
matching"); the matcher is not under `src/`. -/
def stripDiacritic (c : Char) : Char :=
  match c with
  | 'á' | 'à' | 'â' | 'ã' | 'ä' => 'a'
  | 'Á' | 'À' | 'Â' | 'Ã' | 'Ä' => 'A'
  | 'é' | 'è' | 'ê' | 'ë' => 'e'
  | 'É' | 'È' | 'Ê' | 'Ë' => 'E'
  | 'í' | 'ì' | 'î' | 'ï' => 'i'
  | 'Í' | 'Ì' | 'Î' | 'Ï' => 'I'
  | 'ó' | 'ò' | 'ô' | 'õ' | 'ö' => 'o'
  | 'Ó' | 'Ò' | 'Ô' | 'Õ' | 'Ö' => 'O'
  | 'ú' | 'ù' | 'û' | 'ü' => 'u'
  | 'Ú' | 'Ù' | 'Û' | 'Ü' => 'U'
  | 'ç' => 'c'
  | 'Ç' => 'C'
  | _ => c

/-- Modelled from the spec: per-character normalization — strip the
diacritic, then case-fold (spec §4.1). -/
def normChar (c : Char) : Char :=
  (stripDiacritic c).toLower

/-- Modelled from the spec: normalization of a keyword or product name
before comparison (spec §4.1). -/
def normalize (s : String) : String :=
  String.mk (s.data.map normChar)

/-- Does `needle` occur at the head of `hay`? -/
def leadsWith : List Char → List Char → Bool
  | [], _ => true
  | _ :: _, [] => false
  | a :: as, b :: bs => a == b && leadsWith as bs

/-- Does `needle` occur as a contiguous run anywhere in `hay`? -/
def hasSub (needle : List Char) : List Char → Bool
  | [] => needle.isEmpty
  | b :: bs => leadsWith needle (b :: bs) || hasSub needle bs

/-- A character that belongs to a token of a product name. -/
def isTokenChar (c : Char) : Bool :=
  c.isAlphanum

/-- Does `needle` occur in `hay` starting at a token boundary?  `atB` says
whether the current position is a boundary (true at the string start and
after any non-alphanumeric character). -/
def hasSubAtBoundary (needle : List Char) : List Char → Bool → Bool
  | [], atB => atB && needle.isEmpty
  | b :: bs, atB =>
    (atB && leadsWith needle (b :: bs)) || hasSubAtBoundary needle bs (!isTokenChar b)

/-- Modelled from the spec: the score of one qualifying row (spec §4.1,
§9).  Exact full-string equality scores 100; otherwise a similarity in
0-95 weighted by the fraction of the product name covered by the keyword
length, with a bonus when the match starts at a token boundary (the exact
formula is a policy per §9; the binding contract exact > boundary-partial >
mid-word-partial at equal length ratio is preserved).  `nk` is the already
normalized keyword. -/
def scoreRow (nk : String) (row : CatalogRow) : Nat :=
  let np := normalize row.product_name
  if nk = np then 100
  else
    let base := nk.length * 80 / max np.length 1
    if hasSubAtBoundary nk.data np.data true then base + 15 else base

/-- One matcher candidate: the row, its score, and its original catalog
index (the stable tie-breaker of spec §4.1). -/
structure Cand where
  row : CatalogRow
  score : Nat
  idx : Nat
deriving DecidableEq, Repr

/-- Modelled from the spec: collect the qualifying rows in catalog order
(spec §4.1: a row matches when the normalized keyword is a substring of the
normalized product name; no hard cap on result count). -/
def collectCands (nk : String) : Nat → List CatalogRow → List Cand
  | _, [] => []
  | i, r :: rs =>
    if hasSub nk.data (normalize r.product_name).data then
      ⟨r, scoreRow nk r, i⟩ :: collectCands nk (i + 1) rs
    else
      collectCands nk (i + 1) rs

/-- Ranking order of spec §4.1: higher score first, ties broken by shorter
product name, then original catalog order. -/
def rankLE (a b : Cand) : Bool :=
  if a.score = b.score then
    if a.row.product_name.length = b.row.product_name.length then
      decide (a.idx ≤ b.idx)
    else
      decide (a.row.product_name.length < b.row.product_name.length)
  else
    decide (b.score < a.score)

/-- Insert a candidate into a list sorted by `rankLE`. -/
def insertRanked (c : Cand) : List Cand → List Cand
  | [] => [c]
  | d :: ds => if rankLE c d then c :: d :: ds else d :: insertRanked c ds

/-- Sort candidates by `rankLE` (insertion sort). -/
def sortRanked : List Cand → List Cand
  | [] => []
  | c :: cs => insertRanked c (sortRanked cs)

/-- Modelled from the spec: the Matcher contract
`match(keyword, catalog) → ordered sequence⟨(CatalogRow, score)⟩`
(spec §4.1); not under `src/`.  The keyword and every product name are
normalized before comparison, and the result is the ranked list of all
qualifying rows.  (`match` is a reserved word in Lean, hence the name.) -/
def matchKeyword (keyword : String) (catalog : List CatalogRow) : List (CatalogRow × Nat) :=
  let nk := normalize keyword
  (sortRanked (collectCands nk 0 catalog)).map (fun c => (c.row, c.score))

/-- One keyword group of a batch response (spec §3 KeywordGroup). -/
structure KeywordGroup where
  keyword : String
  «matches» : List Match
  total_matches : Nat
deriving DecidableEq, Repr

/-- The batch response (spec §4.3 BatchResult). -/
structure BatchResult where
  results : List KeywordGroup
  total_items_found : Nat
  total_keywords : Nat
deriving DecidableEq, Repr

/-- Modelled from the spec: resolve one keyword into its KeywordGroup
(spec §4.3); not under `src/`.  A keyword with no qualifying rows yields a
group with zero matches rather than an error. -/
def processKeyword (catalog : List CatalogRow) (favorites : Finset String)
    (kw : String) : KeywordGroup :=
  let ms := (matchKeyword kw catalog).map (fun p => buildMatch favorites p.1 p.2)
  { keyword := kw, «matches» := ms, total_matches := ms.length }

/-- Modelled from the spec: the Batch Orchestrator
`run_batch(keywords, catalog, favorites)` (spec §4.3); not under `src/`.
Keywords are processed independently in input order; `total_items_found`
counts every match of every group (per-keyword, no global deduplication). -/
def run_batch (keywords : List String) (catalog : List CatalogRow)
    (favorites : Finset String) : BatchResult :=
  let groups := keywords.map (processKeyword catalog favorites)
  { results := groups
    total_items_found := (groups.map (fun g => g.«matches»)).flatten.length
    total_keywords := keywords.length }

/-- Modelled from the spec: the Favorites Registry `add_favorite` (spec
§4.4, §6); the registry backend is not under `src/`.  The frontend mirrors
it with JavaScript `Set` insertion (`SearchPage.js` line 86). -/
def add_favorite (favorites : Finset String) (item_name : String) : Finset String :=
  insert item_name favorites

/-- Modelled from the spec: the Favorites Registry `remove_favorite` (spec
§4.4, §6); the registry backend is not under `src/`.  The frontend mirrors
it with JavaScript `Set` deletion (`SearchPage.js` line 78). -/
def remove_favorite (favorites : Finset String) (item_name : String) : Finset String :=
  favorites.erase item_name

/-- JavaScript `String.prototype.trim`: remove whitespace from both ends of
the string. -/
def jsTrim (s : String) : String :=
  String.mk (((s.data.dropWhile Char.isWhitespace).reverse.dropWhile Char.isWhitespace).reverse)

/-- JavaScript `String.prototype.split` with a one-character separator:
split into the (possibly empty) chunks between separator occurrences. -/
def splitChar (sep : Char) : List Char → List (List Char)
  | [] => [[]]
  | c :: cs =>
    match splitChar sep cs with
    | [] => if c = sep then [[], []] else [[c]]
    | g :: gs => if c = sep then [] :: g :: gs else (c :: g) :: gs

/-- From `src/frontend/src/pages/SearchPage.js` line 46 (also
`src/unnamed/part_002` line 75, `src/unnamed/part_003` line 87): the lines
of `itemNames.trim().split('\n')`, before the blank-line filter. -/
def rawLines (itemNames : String) : List String :=
  (splitChar '\n' (jsTrim itemNames).data).map String.mk

/-- From `src/frontend/src/pages/SearchPage.js` line 46 (also
`src/unnamed/part_002` line 75, `src/unnamed/part_003` line 87):
`itemNames.trim().split('\n').filter(line => line.trim())` — trim the whole
input, split on newlines, keep the lines whose own trim is non-empty (a
blank trim is the falsy empty string).  The kept lines are passed on as
they are, not individually trimmed. -/
def computeLines (itemNames : String) : List String :=
  (rawLines itemNames).filter (fun line => jsTrim line != "")

/-- Outcome of submitting the textarea contents to the batch entry point. -/
inductive SubmitOutcome where
  | inputError : SubmitOutcome
  | submitted : List String → SubmitOutcome
deriving DecidableEq, Repr

/-- From `src/frontend/src/pages/SearchPage.js` lines 45-57: an empty line
list raises the input error toast and returns without issuing the batch
request; otherwise the lines are posted as `item_names`. -/
def handleGetQuotations (itemNames : String) : SubmitOutcome :=
  let lines := computeLines itemNames
  if lines.length = 0 then SubmitOutcome.inputError else SubmitOutcome.submitted lines

/-- One item of the `/items` listing as consumed by the FavoritesPage
(`src/frontend/src/pages/SearchPage.js`, FavoritesPage section): the same
fields as a catalog row, keyed by `produto`. -/
structure ItemDetails where
  produto : String
  valor_venda : String
  valor_venda_color : String
  limite_sistema : String
  limite_sistema_color : String
  limite_tabela : String
  limite_tabela_color : String
  cinco_porcento : Option String
  cinco_porcento_color : String
deriving DecidableEq, Repr

/-- JavaScript `a || b` on strings: an absent or empty left operand is
falsy and yields the right operand. -/
def jsOr (a b : String) : String :=
  if a = "" then b else a

/-- An optional string as JavaScript sees it: absence behaves as the empty
(falsy) string. -/
def optStr : Option String → String
  | none => ""
  | some s => s

/-- From the FavoritesPage 5% cell (`src/frontend/src/pages/SearchPage.js`
line 431): `itemDetails.cinco_porcento || itemDetails.limite_tabela ||
'N/A'`. -/
def favoritesCincoValue (d : ItemDetails) : String :=
  jsOr (optStr d.cinco_porcento) (jsOr d.limite_tabela "N/A")

/-- From the FavoritesPage 5% cell (`src/frontend/src/pages/SearchPage.js`
line 430): `getColorClass(itemDetails.cinco_porcento_color)` — the color
comes from `cinco_porcento_color` alone. -/
def favoritesCincoColor (d : ItemDetails) : String :=
  getColorClass d.cinco_porcento_color

/-- Claim C1: for every catalog row whose `cinco_porcento` field is absent,
`resolve` returns `fallback_applied = true` and `cinco_porcento_display`
equal to the row's `limite_tabela` value; for every row where
`cinco_porcento` is present, `fallback_applied = false` and the row's own
value and color are used unmodified. -/
theorem C1_resolve_fallback (row : CatalogRow) :
    (row.cinco_porcento = none →
      (resolve row).fallback_applied = true ∧
      (resolve row).cinco_porcento_display = row.limite_tabela) ∧
    (∀ v, row.cinco_porcento = some v →
      (resolve row).fallback_applied = false ∧
      (resolve row).cinco_porcento_display = v ∧
      (resolve row).cinco_porcento_color = row.cinco_porcento_color) := by
  cases h : row.cinco_porcento with
  | none => simp [resolve, h]
  | some v => simp [resolve, h]

/-- Witness for C1 at two concrete rows, one with `cinco_porcento` absent
and one with it present. -/
theorem C1_resolve_fallback_witness :
    (resolve ⟨"1570.THINER 5 LITROS FARBEN", "120,00", "green", "100,00", "none",
        "110,00", "yellow", none, "none"⟩).fallback_applied = true ∧
    (resolve ⟨"1570.THINER 5 LITROS FARBEN", "120,00", "green", "100,00", "none",
        "110,00", "yellow", none, "none"⟩).cinco_porcento_display = "110,00" ∧
    (resolve ⟨"PRODUTO B", "90,00", "none", "80,00", "none",
        "85,00", "green", some "84,00", "yellow"⟩).fallback_applied = false ∧
    (resolve ⟨"PRODUTO B", "90,00", "none", "80,00", "none",
        "85,00", "green", some "84,00", "yellow"⟩).cinco_porcento_display = "84,00" ∧
    (resolve ⟨"PRODUTO B", "90,00", "none", "80,00", "none",
        "85,00", "green", some "84,00", "yellow"⟩).cinco_porcento_color = "yellow" := by
  have h1 := C1_resolve_fallback ⟨"1570.THINER 5 LITROS FARBEN", "120,00", "green",
    "100,00", "none", "110,00", "yellow", none, "none"⟩
  have h2 := C1_resolve_fallback ⟨"PRODUTO B", "90,00", "none", "80,00", "none",
    "85,00", "green", some "84,00", "yellow"⟩
  exact ⟨(h1.1 rfl).1, (h1.1 rfl).2, (h2.2 "84,00" rfl).1,
    (h2.2 "84,00" rfl).2.1, (h2.2 "84,00" rfl).2.2⟩

/-- Claim C2: for every resolved match, the displayed color of the
`cinco_porcento` field is green exactly when `fallback_applied` is true and
`limite_tabela_color` is green; with fallback and any other tabela color
the displayed color is none (the empty CSS class); without fallback it is
`getColorClass` of `cinco_porcento_color`. -/
theorem C2_cinco_display_color (row : CatalogRow) (favorites : Finset String) (score : Nat) :
    ((buildMatch favorites row score).fallback_applied = true ∧
        (buildMatch favorites row score).limite_tabela_color = "green" →
      getCincoDisplayColor (buildMatch favorites row score) = "value-green") ∧
    ((buildMatch favorites row score).fallback_applied = true ∧
        (buildMatch favorites row score).limite_tabela_color ≠ "green" →
      getCincoDisplayColor (buildMatch favorites row score) = "") ∧
    ((buildMatch favorites row score).fallback_applied = false →
      getCincoDisplayColor (buildMatch favorites row score)
        = getColorClass (buildMatch favorites row score).cinco_porcento_color) := by
  cases h : row.cinco_porcento with
  | none =>
    refine ⟨fun hc => ?_, fun hc => ?_, fun hc => ?_⟩
    · simp [getCincoDisplayColor, hc.1, hc.2]
    · have hcol : (buildMatch favorites row score).cinco_porcento_color = "none" := by
        simp [buildMatch, resolve, h]
      simp [getCincoDisplayColor, hc.2, hcol, getColorClass]
    · have : (buildMatch favorites row score).fallback_applied = true := by
        simp [buildMatch, resolve, h]
      simp [this] at hc
  | some v =>
    have hf : (buildMatch favorites row score).fallback_applied = false := by
      simp [buildMatch, resolve, h]
    refine ⟨fun hc => ?_, fun hc => ?_, fun hc => ?_⟩
    · simp [hf] at hc
    · simp [hf] at hc
    · simp [getCincoDisplayColor, hf]

/-- Witness for C2 at three concrete rows: fallback with a green tabela,
fallback with a yellow tabela, and a present 5% value. -/
theorem C2_cinco_display_color_witness :
    getCincoDisplayColor (buildMatch ∅ ⟨"A", "1", "none", "2", "none",
        "110,00", "green", none, "none"⟩ 80) = "value-green" ∧
    getCincoDisplayColor (buildMatch ∅ ⟨"A", "1", "none", "2", "none",
        "110,00", "yellow", none, "none"⟩ 80) = "" ∧
    getCincoDisplayColor (buildMatch ∅ ⟨"A", "1", "none", "2", "none",
        "110,00", "yellow", some "104,50", "yellow"⟩ 80)
      = getColorClass (buildMatch ∅ ⟨"A", "1", "none", "2", "none",
        "110,00", "yellow", some "104,50", "yellow"⟩ 80).cinco_porcento_color := by
  have h1 := C2_cinco_display_color ⟨"A", "1", "none", "2", "none",
    "110,00", "green", none, "none"⟩ ∅ 80
  have h2 := C2_cinco_display_color ⟨"A", "1", "none", "2", "none",
    "110,00", "yellow", none, "none"⟩ ∅ 80
  have h3 := C2_cinco_display_color ⟨"A", "1", "none", "2", "none",
    "110,00", "yellow", some "104,50", "yellow"⟩ ∅ 80
  exact ⟨h1.1 ⟨by decide, by decide⟩, h2.2.1 ⟨by decide, by decide⟩, h3.2.2 (by decide)⟩

/-- Claim C3: for every catalog and every pair of keywords that differ only
in letter case and/or diacritics — i.e. with equal normalizations —
`matchKeyword` returns identical ordered result sequences. -/
theorem C3_match_case_diacritic_invariance (k1 k2 : String) (catalog : List CatalogRow)
    (h : normalize k1 = normalize k2) :
    matchKeyword k1 catalog = matchKeyword k2 catalog := by
  unfold matchKeyword
  rw [h]

/-- Witness for C3: "thiner" and "THÍNER" normalize identically, so they
match identically against a concrete catalog. -/
theorem C3_match_case_diacritic_invariance_witness :
    normalize "thiner" = normalize "THÍNER" ∧
    matchKeyword "thiner" [⟨"1570.THINER 5 LITROS FARBEN", "120,00", "green",
        "100,00", "none", "110,00", "yellow", none, "none"⟩]
      = matchKeyword "THÍNER" [⟨"1570.THINER 5 LITROS FARBEN", "120,00", "green",
        "100,00", "none", "110,00", "yellow", none, "none"⟩] :=
  ⟨by decide, C3_match_case_diacritic_invariance "thiner" "THÍNER"
    [⟨"1570.THINER 5 LITROS FARBEN", "120,00", "green",
      "100,00", "none", "110,00", "yellow", none, "none"⟩] (by decide)⟩

/-- Claim C4: for every batch, `total_items_found` equals the sum of
`total_matches` over all keyword groups, and a catalog row matched under
two different keywords is counted once per keyword (a duplicated keyword
doubles the count — no global deduplication). -/
theorem C4_total_items_found (keywords : List String) (catalog : List CatalogRow)
    (favorites : Finset String) :
    (run_batch keywords catalog favorites).total_items_found
      = ((run_batch keywords catalog favorites).results.map (fun g => g.total_matches)).sum ∧
    ∀ kw : String, (run_batch [kw, kw] catalog favorites).total_items_found
      = 2 * (run_batch [kw] catalog favorites).total_items_found := by
  constructor
  · simp only [run_batch, List.length_flatten, List.map_map]
    rfl
  · intro kw
    simp only [run_batch, List.length_flatten, List.map_cons, List.map_nil, List.sum_cons,
      List.sum_nil]
    omega

/-- Claim C7: the sequence of KeywordGroups in a batch response carries the
keywords in the same order as the input keyword list. -/
theorem C7_batch_ordering (keywords : List String) (catalog : List CatalogRow)
    (favorites : Finset String) :
    (run_batch keywords catalog favorites).results.map (fun g => g.keyword) = keywords := by
  simp only [run_batch, List.map_map]
  exact List.map_id keywords

/-- Claim C5: an all-blank keyword input submitted at the batch entry point
is an input error and the batch is not executed; the engine called directly
with zero keywords returns an empty result set. -/
theorem C5_blank_input_error (itemNames : String) (catalog : List CatalogRow)
    (favorites : Finset String)
    (h : ∀ l ∈ rawLines itemNames, jsTrim l = "") :
    handleGetQuotations itemNames = SubmitOutcome.inputError ∧
    (run_batch [] catalog favorites).results = [] ∧
    (run_batch [] catalog favorites).total_items_found = 0 ∧
    (run_batch [] catalog favorites).total_keywords = 0 := by
  have hempty : computeLines itemNames = [] := by
    unfold computeLines
    refine List.filter_eq_nil_iff.mpr (fun a ha => ?_)
    simp [h a ha]
  refine ⟨?_, rfl, rfl, rfl⟩
  unfold handleGetQuotations
  simp [hempty]

/-- Witness for C5 at a concrete all-blank input. -/
theorem C5_blank_input_error_witness :
    (∀ l ∈ rawLines "  \n\t", jsTrim l = "") ∧
    handleGetQuotations "  \n\t" = SubmitOutcome.inputError ∧
    (run_batch [] [] ∅).results = [] ∧
    (run_batch [] [] ∅).total_items_found = 0 ∧
    (run_batch [] [] ∅).total_keywords = 0 :=
  ⟨by decide, C5_blank_input_error "  \n\t" [] ∅ (by decide)⟩

/-- When no row of the list qualifies for the normalized keyword, the
candidate collection is empty at every starting index. -/
theorem collectCands_eq_nil (nk : String) (rows : List CatalogRow)
    (h : ∀ r ∈ rows, hasSub nk.data (normalize r.product_name).data = false) :
    ∀ i, collectCands nk i rows = [] := by
  induction rows with
  | nil => intro i; rfl
  | cons r rs ih =>
    intro i
    have hr := h r (by simp)
    simp only [collectCands, hr, if_neg, Bool.false_eq_true, if_false]
    exact ih (fun x hx => h x (by simp [hx])) (i + 1)

/-- Claim C6: for every keyword with no qualifying catalog row,
`matchKeyword` returns an empty sequence and the batch yields a
KeywordGroup with `total_matches = 0`; no error is raised. -/
theorem C6_no_match_empty (kw : String) (catalog : List CatalogRow) (favorites : Finset String)
    (h : ∀ r ∈ catalog, hasSub (normalize kw).data (normalize r.product_name).data = false) :
    matchKeyword kw catalog = [] ∧
    (processKeyword catalog favorites kw).total_matches = 0 ∧
    (processKeyword catalog favorites kw).keyword = kw := by
  have h0 : collectCands (normalize kw) 0 catalog = [] := collectCands_eq_nil _ _ h 0
  have hm : matchKeyword kw catalog = [] := by
    simp [matchKeyword, h0, sortRanked]
  exact ⟨hm, by simp [processKeyword, hm], rfl⟩

/-- Witness for C6: the keyword "zzz" against a concrete non-empty
catalog. -/
theorem C6_no_match_empty_witness :
    matchKeyword "zzz" [⟨"1570.THINER 5 LITROS FARBEN", "120,00", "green",
        "100,00", "none", "110,00", "yellow", none, "none"⟩] = [] ∧
    (processKeyword [⟨"1570.THINER 5 LITROS FARBEN", "120,00", "green",
        "100,00", "none", "110,00", "yellow", none, "none"⟩] ∅ "zzz").total_matches = 0 ∧
    (processKeyword [⟨"1570.THINER 5 LITROS FARBEN", "120,00", "green",
        "100,00", "none", "110,00", "yellow", none, "none"⟩] ∅ "zzz").keyword = "zzz" :=
  C6_no_match_empty "zzz" [⟨"1570.THINER 5 LITROS FARBEN", "120,00", "green",
    "100,00", "none", "110,00", "yellow", none, "none"⟩] ∅ (by decide)

/-- Claim C8: `add_favorite` and `remove_favorite` are idempotent set
operations — doing either twice equals doing it once, adding an existing
member is a no-op, and removing a non-member is a no-op. -/
theorem C8_favorites_idempotent (s : Finset String) (x : String) :
    add_favorite (add_favorite s x) x = add_favorite s x ∧
    remove_favorite (remove_favorite s x) x = remove_favorite s x ∧
    (x ∈ s → add_favorite s x = s) ∧
    (x ∉ s → remove_favorite s x = s) := by
  refine ⟨?_, ?_, fun h => ?_, fun h => ?_⟩ <;>
    simp [add_favorite, remove_favorite, *]

/-- Witness for C8 on the concrete favorites set containing only "a". -/
theorem C8_favorites_idempotent_witness :
    add_favorite (add_favorite ({"a"} : Finset String) "b") "b"
      = add_favorite ({"a"} : Finset String) "b" ∧
    remove_favorite (remove_favorite ({"a"} : Finset String) "b") "b"
      = remove_favorite ({"a"} : Finset String) "b" ∧
    add_favorite ({"a"} : Finset String) "a" = ({"a"} : Finset String) ∧
    remove_favorite ({"a"} : Finset String) "b" = ({"a"} : Finset String) := by
  have h1 := C8_favorites_idempotent ({"a"} : Finset String) "b"
  have h2 := C8_favorites_idempotent ({"a"} : Finset String) "a"
  exact ⟨h1.1, h1.2.1, h2.2.2.1 (by decide), h1.2.2.2 (by decide)⟩

/-- Claim C9 counterexample: the entry point passes interior lines without
trimming them — for the input "a\n b" the processed keyword list contains
" b", which is not trimmed text. -/
theorem C9_counterexample_untrimmed_keyword :
    computeLines "a\n b" = ["a", " b"] ∧
    handleGetQuotations "a\n b" = SubmitOutcome.submitted ["a", " b"] ∧
    jsTrim " b" ≠ " b" := by
  exact ⟨by decide, by decide, by decide⟩

/-- Claim C9 as amended: every keyword processed in a batch is non-blank
(its trim is non-empty) but is passed as-is, not individually trimmed, and
`total_keywords` equals the count of lines remaining after dropping the
blank lines of the (globally trimmed) input. -/
theorem C9_keywords_nonblank_count (itemNames : String) (catalog : List CatalogRow)
    (favorites : Finset String) (lines : List String)
    (h : handleGetQuotations itemNames = SubmitOutcome.submitted lines) :
    (∀ l ∈ lines, jsTrim l ≠ "") ∧
    lines = (rawLines itemNames).filter (fun l => jsTrim l != "") ∧
    (run_batch lines catalog favorites).total_keywords
      = ((rawLines itemNames).filter (fun l => jsTrim l != "")).length := by
  have hl : lines = computeLines itemNames := by
    simp only [handleGetQuotations] at h
    by_cases hc : (computeLines itemNames).length = 0
    · rw [if_pos hc] at h
      simp at h
    · rw [if_neg hc] at h
      simp only [SubmitOutcome.submitted.injEq] at h
      exact h.symm
  subst hl
  refine ⟨?_, rfl, rfl⟩
  intro l hlmem
  have hp := List.of_mem_filter hlmem
  simpa using hp

/-- Witness for the amended C9 at the concrete input "a\n b". -/
theorem C9_keywords_nonblank_count_witness :
    handleGetQuotations "a\n b" = SubmitOutcome.submitted ["a", " b"] ∧
    (∀ l ∈ ["a", " b"], jsTrim l ≠ "") ∧
    ["a", " b"] = (rawLines "a\n b").filter (fun l => jsTrim l != "") ∧
    (run_batch ["a", " b"] [] ∅).total_keywords
      = ((rawLines "a\n b").filter (fun l => jsTrim l != "")).length :=
  ⟨by decide, C9_keywords_nonblank_count "a\n b" [] ∅ ["a", " b"] (by decide)⟩

/-- Claim C10: on the favorites page the displayed color of the 5% field is
derived from `cinco_porcento_color` alone — changing `limite_tabela_color`
never changes it — while the search results page forces green on fallback
rows whose tabela color is green, as the concrete contrast shows. -/
theorem C10_favorites_color_ignores_fallback (d : ItemDetails) (tc : String) :
    favoritesCincoColor { d with limite_tabela_color := tc }
      = getColorClass d.cinco_porcento_color ∧
    favoritesCincoColor ⟨"X", "1", "none", "2", "none",
      "110,00", "green", none, "none"⟩ = "" ∧
    getCincoDisplayColor (buildMatch ∅ ⟨"X", "1", "none", "2", "none",
      "110,00", "green", none, "none"⟩ 80) = "value-green" := by
  exact ⟨rfl, rfl, by decide⟩

end Orcafacil
